import Mathlib

/-!
Shallow embedding of the geospatial query engine of the readsb MCP server
(`readsb_mcp_server.py`).  Pure string/number logic is modelled over `ℚ`
(executable), while the trigonometric great-circle computations
(`_calculate_distance`, `_calculate_bearing`) are modelled over `ℝ` with the
ideal real-valued sine/cosine/arcsine/atan2, since the Python code computes
with floating point.  The tool handlers (`_get_closest_aircraft`,
`_get_aircraft_by_direction`, `_search_aircraft`) are modelled as pure
functions taking the results of the upstream HTTP fetches as explicit
parameters (a fetch either succeeds with a value or fails, standing for a
raised exception caught by the handler's `except` block).
-/

namespace Readsb

/-- The normalized view of one upstream aircraft JSON entry: the fields the
query engine reads (`hex`, `flight`, `lat`, `lon`, `alt_baro`, `gs`, `track`,
`r_dst`), each optional since upstream entries are untyped dictionaries.
Numeric fields are taken in an arbitrary type `α` (`ℚ` for the executable
filter/search logic, `ℝ` for the trigonometric pipelines). -/
structure Aircraft (α : Type) where
  hex : Option (List Char)
  flight : Option (List Char)
  lat : Option α
  lon : Option α
  alt_baro : Option α
  gs : Option α
  track : Option α
  r_dst : Option α
deriving DecidableEq

/-- Python `str.upper()` on a string modelled as a character list. -/
def upperL (s : List Char) : List Char := s.map Char.toUpper

/-- Python `str.strip()`: drop whitespace from both ends. -/
def stripL (s : List Char) : List Char :=
  ((s.dropWhile Char.isWhitespace).reverse.dropWhile Char.isWhitespace).reverse

/-- Whether the second list starts with the first one. -/
def startsWithL : List Char → List Char → Bool
  | [], _ => true
  | _ :: _, [] => false
  | a :: as, b :: bs => a == b && startsWithL as bs

/-- Python substring containment `q in s` on character lists. -/
def containsSub (q : List Char) : List Char → Bool
  | [] => q.isEmpty
  | c :: cs => startsWithL q (c :: cs) || containsSub q cs

/-- The `valid_directions` list of `_get_aircraft_by_direction`. -/
def valid_directions : List String :=
  ["north", "south", "east", "west", "northeast", "northwest", "southeast", "southwest"]

/-- The `valid_search_types` list of `_search_aircraft`. -/
def valid_search_types : List String := ["callsign", "hex", "flight", "any"]

/-- `_get_direction_range`: the `direction_ranges` dictionary lookup with the
dictionary's `.get(direction, (0, 360))` default. -/
noncomputable def get_direction_range (direction : String) : ℝ × ℝ :=
  if direction = "north" then (337.5, 22.5)
  else if direction = "northeast" then (22.5, 67.5)
  else if direction = "east" then (67.5, 112.5)
  else if direction = "southeast" then (112.5, 157.5)
  else if direction = "south" then (157.5, 202.5)
  else if direction = "southwest" then (202.5, 247.5)
  else if direction = "west" then (247.5, 292.5)
  else if direction = "northwest" then (292.5, 337.5)
  else (0, 360)

/-- The in-direction membership test of `_get_aircraft_by_direction`
(lines 634-637): plain closed interval when `min <= max`, wraparound
disjunction when `min > max`. -/
def in_direction {α : Type} [LinearOrder α] (bearing mn mx : α) : Bool :=
  if mn ≤ mx then decide (mn ≤ bearing ∧ bearing ≤ mx)
  else decide (mn ≤ bearing ∨ bearing ≤ mx)

/-- Python `math.radians`. -/
noncomputable def radians (x : ℝ) : ℝ := x * (Real.pi / 180)

/-- Python `math.degrees`. -/
noncomputable def degreesR (x : ℝ) : ℝ := x * (180 / Real.pi)

/-- Python `math.atan2` (the standard two-argument arctangent). -/
noncomputable def atan2 (y x : ℝ) : ℝ :=
  if 0 < x then Real.arctan (y / x)
  else if x < 0 then
    (if 0 ≤ y then Real.arctan (y / x) + Real.pi else Real.arctan (y / x) - Real.pi)
  else if 0 < y then Real.pi / 2
  else if y < 0 then -(Real.pi / 2)
  else 0

/-- Python float `%` with a positive modulus: `x - m * floor (x / m)`. -/
noncomputable def pymod (x m : ℝ) : ℝ := x - m * ⌊x / m⌋

/-- `_calculate_distance`: haversine great-circle distance in nautical miles
on a sphere of radius 3440.065 nm. -/
noncomputable def calculate_distance (lat1 lon1 lat2 lon2 : ℝ) : ℝ :=
  let lat1_rad := radians lat1
  let lon1_rad := radians lon1
  let lat2_rad := radians lat2
  let lon2_rad := radians lon2
  let dlat := lat2_rad - lat1_rad
  let dlon := lon2_rad - lon1_rad
  let a := Real.sin (dlat / 2) ^ 2 +
    Real.cos lat1_rad * Real.cos lat2_rad * Real.sin (dlon / 2) ^ 2
  let c := 2 * Real.arcsin (Real.sqrt a)
  3440.065 * c

/-- `_calculate_bearing`: initial great-circle bearing from point 1 to
point 2, normalized into [0, 360) by `(bearing + 360) % 360`. -/
noncomputable def calculate_bearing (lat1 lon1 lat2 lon2 : ℝ) : ℝ :=
  let lat1_rad := radians lat1
  let lon1_rad := radians lon1
  let lat2_rad := radians lat2
  let lon2_rad := radians lon2
  let dlon := lon2_rad - lon1_rad
  let y := Real.sin dlon * Real.cos lat2_rad
  let x := Real.cos lat1_rad * Real.sin lat2_rad -
    Real.sin lat1_rad * Real.cos lat2_rad * Real.cos dlon
  pymod (degreesR (atan2 y x) + 360) 360

/-- The filter/compute loop of `_get_closest_aircraft` (lines 538-545):
keep entries that have both `lat` and `lon`, pair each with its distance to
the feeder, and drop entries beyond `max_distance` when it is given. -/
noncomputable def aircraft_with_distances (flat flon : ℝ) (max_distance : Option ℝ)
    (aircraft_list : List (Aircraft ℝ)) : List (ℝ × Aircraft ℝ) :=
  aircraft_list.filterMap fun a =>
    match a.lat, a.lon with
    | some alat, some alon =>
      let d := calculate_distance flat flon alat alon
      match max_distance with
      | none => some (d, a)
      | some m => if d ≤ m then some (d, a) else none
    | _, _ => none

/-- The query core of `_get_closest_aircraft` (lines 538-549): filter, stable
sort ascending by distance (`sort(key=lambda x: x[0])` is a stable sort, and
a stable sort by a total preorder has a unique result, so `mergeSort` by the
first component is a faithful translation), truncate to `count`. -/
noncomputable def get_closest_aircraft (flat flon : ℝ) (max_distance : Option ℝ)
    (count : ℕ) (aircraft_list : List (Aircraft ℝ)) : List (ℝ × Aircraft ℝ) :=
  ((aircraft_with_distances flat flon max_distance aircraft_list).mergeSort
    (fun x y => decide (x.1 ≤ y.1))).take count

/-- The filter/compute loop of `_get_aircraft_by_direction` (lines 627-644):
keep positioned entries whose bearing from the feeder passes the in-direction
test, pair each with (distance, bearing), and drop entries beyond
`max_distance` when it is given. -/
noncomputable def directional_aircraft (flat flon mn mx : ℝ) (max_distance : Option ℝ)
    (aircraft_list : List (Aircraft ℝ)) : List (ℝ × ℝ × Aircraft ℝ) :=
  aircraft_list.filterMap fun a =>
    match a.lat, a.lon with
    | some alat, some alon =>
      let b := calculate_bearing flat flon alat alon
      if in_direction b mn mx then
        let d := calculate_distance flat flon alat alon
        match max_distance with
        | none => some (d, b, a)
        | some m => if d ≤ m then some (d, b, a) else none
      else none
    | _, _ => none

/-- The query core of `_get_aircraft_by_direction` (lines 627-648): filter by
direction and distance, stable sort ascending by distance, truncate. -/
noncomputable def get_aircraft_by_direction (flat flon mn mx : ℝ) (max_distance : Option ℝ)
    (count : ℕ) (aircraft_list : List (Aircraft ℝ)) : List (ℝ × ℝ × Aircraft ℝ) :=
  ((directional_aircraft flat flon mn mx max_distance aircraft_list).mergeSort
    (fun x y => decide (x.1 ≤ y.1))).take count

/-- The per-aircraft match test of `_search_aircraft` (lines 380-393): the
three `if` branches in source order; an entry is appended (once, thanks to
`continue`) exactly when one of them fires. -/
def search_one {α : Type} (query : List Char) (st : String) (a : Aircraft α) : Bool :=
  if (st == "callsign" || st == "any") && containsSub query (upperL (stripL (a.flight.getD []))) then
    true
  else if (st == "hex" || st == "any") && containsSub query (upperL (a.hex.getD [])) then
    true
  else
    (st == "flight" || st == "any") && containsSub query (upperL (stripL (a.flight.getD [])))

/-- The `matches` list built by the search loop: entries in snapshot order,
each appended at most once. -/
def search_matches {α : Type} (query : List Char) (st : String)
    (aircraft_list : List (Aircraft α)) : List (Aircraft α) :=
  aircraft_list.filter (search_one query st)

/-- A sample snapshot entry sitting at latitude 0, longitude 10 (due east of
an observer at the origin), used for the concrete directional example. -/
noncomputable def examplePlane : Aircraft ℝ :=
  { hex := none, flight := none, lat := some 0, lon := some 10,
    alt_baro := none, gs := none, track := none, r_dst := none }

/-- A sample snapshot entry reporting barometric altitude 20000 ft. -/
def exampleHighPlane : Aircraft ℚ :=
  { hex := none, flight := none, lat := none, lon := none,
    alt_baro := some 20000, gs := none, track := none, r_dst := none }

/-- A sample snapshot entry with no barometric altitude field. -/
def exampleNoAltPlane : Aircraft ℚ :=
  { hex := none, flight := none, lat := none, lon := none,
    alt_baro := none, gs := none, track := none, r_dst := none }

/-- Result of one upstream JSON fetch, as seen by a handler: either the
parsed value or a raised exception (caught by the handler's `except`). -/
inductive FetchResult (β : Type) where
  | ok (v : β)
  | failed
deriving DecidableEq

/-- The distinct return sites of `_search_aircraft`, in source order. -/
inductive SearchOutcome (α : Type) where
  | emptyQuery
  | invalidSearchType (st : String)
  | fetchError
  | noMatches (query : List Char) (st : String)
  | found (ms : List (Aircraft α))
deriving DecidableEq

/-- `_search_aircraft` (lines 355-396): normalize the query, validate it and
the search type, fetch the snapshot, and collect matches. -/
def search_aircraft {α : Type} (query : List Char) (search_type : Option String)
    (aircraft_fetch : FetchResult (List (Aircraft α))) : SearchOutcome α :=
  let q := stripL (upperL query)
  if q.isEmpty then .emptyQuery
  else
    let st := search_type.getD "any"
    if st ∈ valid_search_types then
      match aircraft_fetch with
      | .failed => .fetchError
      | .ok l =>
        let ms := search_matches q st l
        if ms.isEmpty then .noMatches q st else .found ms
    else .invalidSearchType st

/-- The `filter_altitude` argument of `get_aircraft_data`: optional `min`
(default 0) and `max` (default 50000). -/
structure AltFilter where
  min : Option ℚ
  max : Option ℚ
deriving DecidableEq

/-- The `filter_distance` filter of `_get_aircraft_data` (line 266): keep
entries whose upstream `r_dst` (defaulted to 0) is at most `max_dist`. -/
def filter_by_distance (max_dist : ℚ) (l : List (Aircraft ℚ)) : List (Aircraft ℚ) :=
  l.filter fun a => decide (a.r_dst.getD 0 ≤ max_dist)

/-- The `filter_altitude` filter of `_get_aircraft_data` (lines 268-272):
keep entries whose `alt_baro` (defaulted to 0) lies in `[min, max]`. -/
def filter_by_altitude (af : AltFilter) (l : List (Aircraft ℚ)) : List (Aircraft ℚ) :=
  let min_alt := af.min.getD 0
  let max_alt := af.max.getD 50000
  l.filter fun a => decide (min_alt ≤ a.alt_baro.getD 0 ∧ a.alt_baro.getD 0 ≤ max_alt)

/-- The filtering pipeline of `_get_aircraft_data` (lines 261-272): distance
filter, then altitude filter, each applied only when its argument is given. -/
def get_aircraft_data (filter_distance : Option ℚ) (filter_altitude : Option AltFilter)
    (aircraft_list : List (Aircraft ℚ)) : List (Aircraft ℚ) :=
  let l1 := match filter_distance with
    | none => aircraft_list
    | some md => filter_by_distance md aircraft_list
  match filter_altitude with
  | none => l1
  | some af => filter_by_altitude af l1

/-- The JSON `count` argument: either an integer (`isinstance(count, int)`
holds) or some non-integer JSON value. -/
inductive CountArg where
  | int (n : ℤ)
  | nonInt
deriving DecidableEq

/-- The fields of `receiver.json` read by the handlers. -/
structure ReceiverData where
  lat : Option ℝ
  lon : Option ℝ

/-- Python truthiness of the optional `max_distance` float (`if max_distance:`):
false for `None` and for 0. -/
noncomputable def truthyOpt (x : Option ℝ) : Bool :=
  match x with
  | none => false
  | some v => !(decide (v = 0))

/-- The distinct return sites of `_get_closest_aircraft`, in source order. -/
inductive ClosestOutcome where
  | invalidCount
  | fetchError
  | locationError
  | noneFound (maxDistanceTruthy : Bool)
  | found (flat flon : ℝ) (entries : List (ℝ × Aircraft ℝ))

/-- `_get_closest_aircraft` (lines 514-587): validate `count`, fetch the
receiver location, reject missing-or-falsy coordinates, fetch the snapshot,
and run the closest-aircraft query. -/
noncomputable def get_closest_aircraft_tool (count : Option CountArg) (max_distance : Option ℝ)
    (receiver_fetch : FetchResult ReceiverData)
    (aircraft_fetch : FetchResult (List (Aircraft ℝ))) : ClosestOutcome :=
  match count.getD (.int 5) with
  | .nonInt => .invalidCount
  | .int n =>
    if n < 1 ∨ 50 < n then .invalidCount
    else
      match receiver_fetch with
      | .failed => .fetchError
      | .ok rd =>
        match rd.lat, rd.lon with
        | some flat, some flon =>
          if decide (flat = 0) || decide (flon = 0) then .locationError
          else
            match aircraft_fetch with
            | .failed => .fetchError
            | .ok l =>
              let closest := get_closest_aircraft flat flon max_distance n.toNat l
              if closest.isEmpty then .noneFound (truthyOpt max_distance)
              else .found flat flon closest
        | _, _ => .locationError

/-- Python `str.lower()` on the ASCII direction names, acting on the
underlying character list (`String.toLower` is extensionally the same but is
defined by position-based recursion that resists kernel reduction). -/
def lowerS (s : String) : String := ⟨s.data.map Char.toLower⟩

/-- The distinct return sites of `_get_aircraft_by_direction`, in source
order. -/
inductive DirectionOutcome where
  | invalidDirection (direction : String)
  | invalidCount
  | fetchError
  | locationError
  | noneFound (direction : String) (maxDistanceTruthy : Bool)
  | found (flat flon : ℝ) (entries : List (ℝ × ℝ × Aircraft ℝ))

/-- `_get_aircraft_by_direction` (lines 589-693): lowercase and validate the
direction, validate `count`, fetch the receiver location, reject
missing-or-falsy coordinates, look up the direction range, fetch the
snapshot, and run the directional query. -/
noncomputable def get_aircraft_by_direction_tool (direction : String) (max_distance : Option ℝ)
    (count : Option CountArg) (receiver_fetch : FetchResult ReceiverData)
    (aircraft_fetch : FetchResult (List (Aircraft ℝ))) : DirectionOutcome :=
  let dl := lowerS direction
  if dl ∈ valid_directions then
    match count.getD (.int 10) with
    | .nonInt => .invalidCount
    | .int n =>
      if n < 1 ∨ 50 < n then .invalidCount
      else
        match receiver_fetch with
        | .failed => .fetchError
        | .ok rd =>
          match rd.lat, rd.lon with
          | some flat, some flon =>
            if decide (flat = 0) || decide (flon = 0) then .locationError
            else
              let r := get_direction_range dl
              match aircraft_fetch with
              | .failed => .fetchError
              | .ok l =>
                let da := get_aircraft_by_direction flat flon r.1 r.2 max_distance n.toNat l
                if da.isEmpty then .noneFound dl (truthyOpt max_distance)
                else .found flat flon da
          | _, _ => .locationError
  else .invalidDirection dl

end Readsb

namespace Readsb

/-! Helper lemmas shared by the claim theorems. -/

theorem fstle_trans {β : Type} (a b c : ℝ × β)
    (h1 : decide (a.1 ≤ b.1) = true) (h2 : decide (b.1 ≤ c.1) = true) :
    decide (a.1 ≤ c.1) = true :=
  decide_eq_true (le_trans (of_decide_eq_true h1) (of_decide_eq_true h2))

theorem fstle_total {β : Type} (a b : ℝ × β) :
    (decide (a.1 ≤ b.1) || decide (b.1 ≤ a.1)) = true := by
  rcases le_total a.1 b.1 with h | h
  · simp [decide_eq_true h]
  · simp [decide_eq_true h]

theorem awd_mem (flat flon : ℝ) (md : Option ℝ) (l : List (Aircraft ℝ))
    (p : ℝ × Aircraft ℝ) (hp : p ∈ aircraft_with_distances flat flon md l) :
    ∃ a, a ∈ l ∧ ∃ alat alon, a.lat = some alat ∧ a.lon = some alon ∧
      p = (calculate_distance flat flon alat alon, a) ∧
      (∀ m, md = some m → calculate_distance flat flon alat alon ≤ m) := by
  obtain ⟨a, ha, hfa⟩ := List.mem_filterMap.mp hp
  simp only [] at hfa
  split at hfa
  next alat alon hla hlo =>
    refine ⟨a, ha, alat, alon, hla, hlo, ?_⟩
    split at hfa
    next =>
      simp only [Option.some.injEq] at hfa
      exact ⟨hfa.symm, by intro m hm; cases hm⟩
    next m =>
      split at hfa
      next hd =>
        simp only [Option.some.injEq] at hfa
        refine ⟨hfa.symm, ?_⟩
        intro m' hm'
        cases hm'
        exact hd
      next hd => cases hfa
  next => cases hfa

theorem da_mem (flat flon mn mx : ℝ) (md : Option ℝ) (l : List (Aircraft ℝ))
    (p : ℝ × ℝ × Aircraft ℝ) (hp : p ∈ directional_aircraft flat flon mn mx md l) :
    ∃ a, a ∈ l ∧ ∃ alat alon, a.lat = some alat ∧ a.lon = some alon ∧
      in_direction (calculate_bearing flat flon alat alon) mn mx = true ∧
      p = (calculate_distance flat flon alat alon, calculate_bearing flat flon alat alon, a) ∧
      (∀ m, md = some m → calculate_distance flat flon alat alon ≤ m) := by
  obtain ⟨a, ha, hfa⟩ := List.mem_filterMap.mp hp
  simp only [] at hfa
  split at hfa
  next alat alon hla hlo =>
    split at hfa
    next hdir =>
      refine ⟨a, ha, alat, alon, hla, hlo, hdir, ?_⟩
      split at hfa
      next =>
        simp only [Option.some.injEq] at hfa
        exact ⟨hfa.symm, by intro m hm; cases hm⟩
      next m =>
        split at hfa
        next hd =>
          simp only [Option.some.injEq] at hfa
          refine ⟨hfa.symm, ?_⟩
          intro m' hm'
          cases hm'
          exact hd
        next hd => cases hfa
    next hdir => cases hfa
  next => cases hfa

theorem da_mem_of (flat flon mn mx : ℝ) (md : Option ℝ) (l : List (Aircraft ℝ))
    (a : Aircraft ℝ) (ha : a ∈ l) (alat alon : ℝ)
    (hla : a.lat = some alat) (hlo : a.lon = some alon)
    (hdir : in_direction (calculate_bearing flat flon alat alon) mn mx = true)
    (hmd : ∀ m, md = some m → calculate_distance flat flon alat alon ≤ m) :
    (calculate_distance flat flon alat alon, calculate_bearing flat flon alat alon, a)
      ∈ directional_aircraft flat flon mn mx md l := by
  apply List.mem_filterMap.mpr
  refine ⟨a, ha, ?_⟩
  simp only [hla, hlo, hdir, if_true]
  cases md with
  | none => rfl
  | some m =>
    show (if calculate_distance flat flon alat alon ≤ m then
        some (calculate_distance flat flon alat alon, calculate_bearing flat flon alat alon, a)
      else none) =
      some (calculate_distance flat flon alat alon, calculate_bearing flat flon alat alon, a)
    rw [if_pos (hmd m rfl)]

theorem in_direction_east : in_direction (90 : ℝ) 67.5 112.5 = true := by
  simp only [in_direction]; norm_num

theorem in_direction_west : in_direction (90 : ℝ) 247.5 292.5 = false := by
  simp only [in_direction]; norm_num

theorem calculate_bearing_east : calculate_bearing 0 0 0 10 = 90 := by
  have hr0 : radians 0 = 0 := by simp [radians]
  have hs : 0 < Real.sin (radians 10) := by
    apply Real.sin_pos_of_pos_of_lt_pi
    · rw [radians]; positivity
    · rw [radians]
      nlinarith [Real.pi_pos]
  have hdeg : degreesR (Real.pi / 2) = 90 := by
    rw [degreesR]
    field_simp
    ring
  have hatan : atan2 (Real.sin (radians 10) * Real.cos 0)
      (Real.cos 0 * Real.sin 0 - Real.sin 0 * Real.cos 0 * Real.cos (radians 10)) =
      Real.pi / 2 := by
    rw [Real.sin_zero, Real.cos_zero]
    rw [show Real.sin (radians 10) * 1 = Real.sin (radians 10) by ring]
    rw [show (1 * 0 - 0 * 1 * Real.cos (radians 10) : ℝ) = 0 by ring]
    rw [atan2]
    rw [if_neg (lt_irrefl 0), if_neg (lt_irrefl 0), if_pos hs]
  simp only [calculate_bearing, hr0, sub_zero]
  rw [hatan, hdeg, pymod]
  rw [show (90 : ℝ) + 360 = 450 by norm_num]
  rw [show (450 : ℝ) / 360 = 5 / 4 by norm_num]
  rw [show ⌊(5 / 4 : ℝ)⌋ = 1 from ?hf]
  · norm_num
  case hf =>
    rw [Int.floor_eq_iff]
    constructor <;> norm_num

theorem east_list :
    directional_aircraft 0 0 67.5 112.5 none [examplePlane] =
      [(calculate_distance 0 0 0 10, 90, examplePlane)] := by
  unfold directional_aircraft
  rw [List.filterMap_cons, List.filterMap_nil]
  simp only [examplePlane, calculate_bearing_east, in_direction_east, if_true]

theorem west_list :
    directional_aircraft 0 0 247.5 292.5 none [examplePlane] = [] := by
  unfold directional_aircraft
  rw [List.filterMap_cons, List.filterMap_nil]
  simp only [examplePlane, calculate_bearing_east, in_direction_west, Bool.false_eq_true,
    if_false]

theorem toUpper_whitespace (c : Char) (h : c.isWhitespace = true) : c.toUpper = c := by
  simp only [Char.isWhitespace, Bool.or_eq_true, decide_eq_true_eq] at h
  rcases h with ((h | h) | h) | h <;> subst h <;> decide

theorem stripL_upperL_whitespace (s : List Char) (h : ∀ c ∈ s, c.isWhitespace = true) :
    stripL (upperL s) = [] := by
  have hall : ∀ c ∈ upperL s, c.isWhitespace = true := by
    intro c hc
    simp only [upperL, List.mem_map] at hc
    obtain ⟨d, hd, rfl⟩ := hc
    rw [toUpper_whitespace d (h d hd)]
    exact h d hd
  unfold stripL
  rw [List.dropWhile_eq_nil_iff.mpr hall]
  simp

end Readsb

namespace Readsb

/-- Claim C1 (counterexample): "up" is not one of the 8 named compass
directions, yet the direction-range lookup `get_direction_range`
(`_get_direction_range`) returns the default full range (0, 360) for it
instead of failing with an InvalidArgument error. -/
theorem C1_counterexample :
    "up" ∉ valid_directions ∧ get_direction_range "up" = (0, 360) :=
  ⟨by decide, rfl⟩

/-- Claim C1 (amended): a direction name that is not one of the 8 named
compass directions is rejected with a validation error by the by-direction
tool handler before the range lookup is consulted; the lookup function
itself does not fail but returns the default full range (0, 360) for the
unknown name. -/
theorem C1_unknown_direction (direction : String) (md : Option ℝ) (count : Option CountArg)
    (rf : FetchResult ReceiverData) (af : FetchResult (List (Aircraft ℝ)))
    (h : lowerS direction ∉ valid_directions) :
    get_aircraft_by_direction_tool direction md count rf af =
      DirectionOutcome.invalidDirection (lowerS direction) ∧
    get_direction_range (lowerS direction) = (0, 360) := by
  constructor
  · unfold get_aircraft_by_direction_tool
    simp only [if_neg h]
  · have h' := h
    simp only [valid_directions, List.mem_cons, List.not_mem_nil, or_false, not_or] at h'
    obtain ⟨h1, h2, h3, h4, h5, h6, h7, h8⟩ := h'
    unfold get_direction_range
    rw [if_neg h1, if_neg h5, if_neg h3, if_neg h7, if_neg h2, if_neg h8, if_neg h4, if_neg h6]

/-- Witness for C1 at the concrete unknown direction "UP". -/
theorem C1_unknown_direction_witness :
    get_aircraft_by_direction_tool "UP" none none .failed .failed =
      DirectionOutcome.invalidDirection (lowerS "UP") ∧
    get_direction_range (lowerS "UP") = (0, 360) :=
  C1_unknown_direction "UP" none none .failed .failed (by decide)

/-- Claim C2: for every bearing and direction range, membership is the
closed-interval test `min <= b <= max` when `min <= max` and the wraparound
disjunction `b >= min or b <= max` when `min > max`; in particular for
north's range (337.5, 22.5), bearing 350 is a member and bearing 180 is
not. -/
theorem C2_in_direction_spec (b mn mx : ℝ) :
    (in_direction b mn mx = true ↔
      ((mn ≤ mx ∧ mn ≤ b ∧ b ≤ mx) ∨ (mx < mn ∧ (mn ≤ b ∨ b ≤ mx)))) ∧
    in_direction (350 : ℝ) 337.5 22.5 = true ∧
    in_direction (180 : ℝ) 337.5 22.5 = false := by
  refine ⟨?_, ?_, ?_⟩
  · unfold in_direction
    by_cases h : mn ≤ mx
    · simp [h, not_lt.mpr h]
    · simp [h, not_le.mp h]
  · simp only [in_direction]; norm_num
  · simp only [in_direction]; norm_num

/-- Claim C3: the closest-aircraft query returns only records having both
latitude and longitude, each paired with its great-circle distance to the
observer; every returned distance respects `max_distance` when given; the
result is sorted non-decreasing by distance, with ties kept in input order
(stability of the sort); and the result has at most `count` entries. -/
theorem C3_closest_spec (flat flon : ℝ) (md : Option ℝ) (count : ℕ) (l : List (Aircraft ℝ))
    (hc1 : 1 ≤ count) (hc2 : count ≤ 50) :
    (∀ p ∈ get_closest_aircraft flat flon md count l,
       ∃ a, a ∈ l ∧ ∃ alat alon, a.lat = some alat ∧ a.lon = some alon ∧
         p = (calculate_distance flat flon alat alon, a)) ∧
    (∀ m, md = some m → ∀ p ∈ get_closest_aircraft flat flon md count l, p.1 ≤ m) ∧
    List.Pairwise (fun p q : ℝ × Aircraft ℝ => p.1 ≤ q.1)
      (get_closest_aircraft flat flon md count l) ∧
    (∀ p q : ℝ × Aircraft ℝ, p.1 = q.1 →
       List.Sublist [p, q] (aircraft_with_distances flat flon md l) →
       List.Sublist [p, q]
         ((aircraft_with_distances flat flon md l).mergeSort (fun x y => decide (x.1 ≤ y.1)))) ∧
    (get_closest_aircraft flat flon md count l).length ≤ count := by
  have hmem : ∀ p ∈ get_closest_aircraft flat flon md count l,
      p ∈ aircraft_with_distances flat flon md l := by
    intro p hp
    have ht := List.mem_of_mem_take hp
    exact (List.mergeSort_perm (aircraft_with_distances flat flon md l) _).mem_iff.mp ht
  refine ⟨?_, ?_, ?_, ?_, ?_⟩
  · intro p hp
    obtain ⟨a, ha, alat, alon, h1, h2, h3, _⟩ := awd_mem flat flon md l p (hmem p hp)
    exact ⟨a, ha, alat, alon, h1, h2, h3⟩
  · intro m hm p hp
    obtain ⟨a, ha, alat, alon, h1, h2, h3, h4⟩ := awd_mem flat flon md l p (hmem p hp)
    rw [h3]
    exact h4 m hm
  · have hsorted := @List.sorted_mergeSort (ℝ × Aircraft ℝ)
      (fun x y => decide (x.1 ≤ y.1))
      (fun a b c hab hbc => fstle_trans a b c hab hbc)
      (fun a b => fstle_total a b)
      (aircraft_with_distances flat flon md l)
    have htake := hsorted.sublist (List.take_sublist count _)
    exact htake.imp fun h => of_decide_eq_true h
  · intro p q hpq hsub
    exact List.sublist_mergeSort
      (fun a b c hab hbc => fstle_trans a b c hab hbc)
      (fun a b => fstle_total a b)
      (by simp [List.pairwise_cons, hpq]) hsub
  · exact List.length_take_le count _

/-- Witness for C3 at a concrete input (count 5, empty snapshot). -/
theorem C3_closest_spec_witness : (get_closest_aircraft 0 0 none 5 []).length ≤ 5 :=
  (C3_closest_spec 0 0 none 5 [] (by decide) (by decide)).2.2.2.2

end Readsb

namespace Readsb

/-- Claim C4: the by-direction query keeps exactly the positioned aircraft
whose bearing from the observer passes the membership test for the
direction's angular range, applying that test before the distance filter;
the result is the sorted, truncated image of that filtered list, sorted
ascending by distance and at most `count` long.  Concretely, with the
observer at (0,0) and an aircraft at (0,10) the bearing is 90 degrees, so
direction "east" includes that aircraft and direction "west" excludes it. -/
theorem C4_by_direction_spec (flat flon : ℝ) (md : Option ℝ) (count : ℕ)
    (l : List (Aircraft ℝ)) (direction : String) (hdir : direction ∈ valid_directions)
    (hc1 : 1 ≤ count) (hc2 : count ≤ 50) :
    (∀ p ∈ directional_aircraft flat flon (get_direction_range direction).1
        (get_direction_range direction).2 md l,
       ∃ a, a ∈ l ∧ ∃ alat alon, a.lat = some alat ∧ a.lon = some alon ∧
         in_direction (calculate_bearing flat flon alat alon)
           (get_direction_range direction).1 (get_direction_range direction).2 = true ∧
         p = (calculate_distance flat flon alat alon,
              calculate_bearing flat flon alat alon, a) ∧
         (∀ m, md = some m → calculate_distance flat flon alat alon ≤ m)) ∧
    (∀ a ∈ l, ∀ alat alon, a.lat = some alat → a.lon = some alon →
       in_direction (calculate_bearing flat flon alat alon)
         (get_direction_range direction).1 (get_direction_range direction).2 = true →
       (∀ m, md = some m → calculate_distance flat flon alat alon ≤ m) →
       (calculate_distance flat flon alat alon, calculate_bearing flat flon alat alon, a)
         ∈ directional_aircraft flat flon (get_direction_range direction).1
             (get_direction_range direction).2 md l) ∧
    get_aircraft_by_direction flat flon (get_direction_range direction).1
        (get_direction_range direction).2 md count l
      = ((directional_aircraft flat flon (get_direction_range direction).1
            (get_direction_range direction).2 md l).mergeSort
          (fun x y => decide (x.1 ≤ y.1))).take count ∧
    List.Pairwise (fun p q : ℝ × ℝ × Aircraft ℝ => p.1 ≤ q.1)
      (get_aircraft_by_direction flat flon (get_direction_range direction).1
        (get_direction_range direction).2 md count l) ∧
    (get_aircraft_by_direction flat flon (get_direction_range direction).1
        (get_direction_range direction).2 md count l).length ≤ count ∧
    calculate_bearing 0 0 0 10 = 90 ∧
    (calculate_distance 0 0 0 10, 90, examplePlane) ∈
      get_aircraft_by_direction 0 0 (get_direction_range "east").1
        (get_direction_range "east").2 none 10 [examplePlane] ∧
    get_aircraft_by_direction 0 0 (get_direction_range "west").1
      (get_direction_range "west").2 none 10 [examplePlane] = [] := by
  refine ⟨?_, ?_, rfl, ?_, ?_, calculate_bearing_east, ?_, ?_⟩
  · intro p hp
    exact da_mem flat flon (get_direction_range direction).1
      (get_direction_range direction).2 md l p hp
  · intro a ha alat alon hla hlo hd hmd
    exact da_mem_of flat flon (get_direction_range direction).1
      (get_direction_range direction).2 md l a ha alat alon hla hlo hd hmd
  · have hsorted := @List.sorted_mergeSort (ℝ × ℝ × Aircraft ℝ)
      (fun x y => decide (x.1 ≤ y.1))
      (fun a b c hab hbc => fstle_trans a b c hab hbc)
      (fun a b => fstle_total a b)
      (directional_aircraft flat flon (get_direction_range direction).1
        (get_direction_range direction).2 md l)
    have htake := hsorted.sublist (List.take_sublist count _)
    exact htake.imp fun h => of_decide_eq_true h
  · exact List.length_take_le count _
  · show (calculate_distance 0 0 0 10, 90, examplePlane) ∈
      get_aircraft_by_direction 0 0 67.5 112.5 none 10 [examplePlane]
    unfold get_aircraft_by_direction
    rw [east_list, List.mergeSort_singleton]
    simp
  · show get_aircraft_by_direction 0 0 247.5 292.5 none 10 [examplePlane] = []
    unfold get_aircraft_by_direction
    rw [west_list, List.mergeSort_nil, List.take_nil]

/-- Witness for C4 at a concrete input (direction "east", count 10, empty
snapshot). -/
theorem C4_by_direction_spec_witness :
    get_aircraft_by_direction 0 0 (get_direction_range "west").1
      (get_direction_range "west").2 none 10 [examplePlane] = [] :=
  (C4_by_direction_spec 0 0 none 10 [] "east" (by decide) (by decide)
    (by decide)).2.2.2.2.2.2.2

end Readsb

namespace Readsb

/-- Claim C5: search matching is case-insensitive substring containment on
the normalized (uppercased) fields; search types "callsign" and "flight"
produce exactly the same matches (both test the trimmed callsign field),
"hex" tests the identifier, and "any" matches exactly when the callsign test
or the hex test succeeds; the match list is a sublist of the snapshot, so
each matching record appears exactly once, in original snapshot order. -/
theorem C5_search_types {α : Type} (q : List Char) (l : List (Aircraft α)) :
    search_matches q "callsign" l = search_matches q "flight" l ∧
    search_matches q "hex" l = l.filter (fun a => containsSub q (upperL (a.hex.getD []))) ∧
    search_matches q "any" l = l.filter (fun a =>
      containsSub q (upperL (stripL (a.flight.getD []))) ||
      containsSub q (upperL (a.hex.getD []))) ∧
    ∀ st : String, (search_matches q st l).Sublist l := by
  refine ⟨?_, ?_, ?_, fun st => List.filter_sublist l⟩
  · unfold search_matches
    apply List.filter_congr
    intro a _
    cases h1 : containsSub q (upperL (stripL (a.flight.getD []))) <;>
      simp [search_one, h1]
  · unfold search_matches
    apply List.filter_congr
    intro a _
    cases h1 : containsSub q (upperL (a.hex.getD [])) <;> simp [search_one, h1]
  · unfold search_matches
    apply List.filter_congr
    intro a _
    cases h1 : containsSub q (upperL (stripL (a.flight.getD []))) <;>
      cases h2 : containsSub q (upperL (a.hex.getD [])) <;> simp [search_one, h1, h2]

/-- Claim C6: a `count` argument that is not an integer or lies outside
[1, 50] makes both the closest-aircraft and the by-direction handler return
the count validation error, whatever the receiver and aircraft fetches would
return (both fetch results are universally quantified, including the failing
ones, so the validation demonstrably precedes any use of upstream data). -/
theorem C6_count_validation (c : CountArg) (md md' : Option ℝ)
    (rf rf' : FetchResult ReceiverData)
    (af af' : FetchResult (List (Aircraft ℝ))) (direction : String)
    (hbad : c = CountArg.nonInt ∨ ∃ n, c = CountArg.int n ∧ (n < 1 ∨ 50 < n))
    (hdir : lowerS direction ∈ valid_directions) :
    get_closest_aircraft_tool (some c) md rf af = ClosestOutcome.invalidCount ∧
    get_aircraft_by_direction_tool direction md' (some c) rf' af' =
      DirectionOutcome.invalidCount := by
  rcases hbad with rfl | ⟨n, rfl, hn⟩
  · constructor
    · rfl
    · unfold get_aircraft_by_direction_tool
      simp only [if_pos hdir]
      rfl
  · constructor
    · unfold get_closest_aircraft_tool
      simp only [Option.getD_some]
      rw [if_pos hn]
    · unfold get_aircraft_by_direction_tool
      simp only [if_pos hdir, Option.getD_some]
      rw [if_pos hn]

/-- Witness for C6 at a concrete input (non-integer count, direction
"north", both fetches failing). -/
theorem C6_count_validation_witness :
    get_closest_aircraft_tool (some CountArg.nonInt) none .failed .failed =
      ClosestOutcome.invalidCount ∧
    get_aircraft_by_direction_tool "north" none (some CountArg.nonInt) .failed .failed =
      DirectionOutcome.invalidCount :=
  C6_count_validation CountArg.nonInt none none .failed .failed .failed .failed
    "north" (Or.inl rfl) (by decide)

/-- Claim C7: with only an altitude range given, the filtered-list operation
keeps a record exactly when its barometric altitude, taken as 0 when the
field is absent, lies within [min, max]; the output is a sublist of the
snapshot (order preserved); concretely, range [0, 10000] excludes a record
with altitude 20000 and keeps one with no altitude field. -/
theorem C7_altitude_filter (l : List (Aircraft ℚ)) (mn mx : ℚ) :
    get_aircraft_data none (some ⟨some mn, some mx⟩) l =
      l.filter (fun a => decide (mn ≤ a.alt_baro.getD 0 ∧ a.alt_baro.getD 0 ≤ mx)) ∧
    (get_aircraft_data none (some ⟨some mn, some mx⟩) l).Sublist l ∧
    get_aircraft_data none (some ⟨some (0 : ℚ), some 10000⟩)
        [exampleHighPlane, exampleNoAltPlane] = [exampleNoAltPlane] :=
  ⟨rfl, List.filter_sublist l, by decide⟩

/-- Claim C8: an empty or whitespace-only query makes the search handler
return the validation-error outcome, while a well-formed query matching zero
aircraft returns the distinct successful no-matches outcome; the two
outcomes are different constructors, hence distinguishable. -/
theorem C8_search_validation {α : Type} (query : List Char) (st : Option String)
    (f : FetchResult (List (Aircraft α))) (l : List (Aircraft α)) :
    ((∀ c ∈ query, c.isWhitespace = true) →
      search_aircraft query st f = SearchOutcome.emptyQuery) ∧
    ((stripL (upperL query)).isEmpty = false → st.getD "any" ∈ valid_search_types →
      search_matches (stripL (upperL query)) (st.getD "any") l = [] →
      search_aircraft query st (.ok l) =
        SearchOutcome.noMatches (stripL (upperL query)) (st.getD "any")) ∧
    (∀ (q' : List Char) (s' : String),
      SearchOutcome.noMatches (α := α) q' s' ≠ SearchOutcome.emptyQuery) := by
  refine ⟨?_, ?_, ?_⟩
  · intro hws
    unfold search_aircraft
    rw [stripL_upperL_whitespace query hws]
    rfl
  · intro hne hvalid hzero
    unfold search_aircraft
    simp only [hne, Bool.false_eq_true, if_false, if_pos hvalid, hzero]
    rfl
  · intro q' s'
    exact fun hcon => SearchOutcome.noConfusion hcon

/-- Witness for C8: a whitespace-only query errors while a well-formed query
over an empty snapshot yields the no-matches outcome. -/
theorem C8_search_validation_witness :
    search_aircraft [' '] none (FetchResult.failed (β := List (Aircraft ℚ))) =
      SearchOutcome.emptyQuery ∧
    search_aircraft ['Z'] none (FetchResult.ok ([] : List (Aircraft ℚ))) =
      SearchOutcome.noMatches (stripL (upperL ['Z'])) ((none : Option String).getD "any") :=
  ⟨(C8_search_validation [' '] none FetchResult.failed []).1 (by decide),
   (C8_search_validation ['Z'] none (FetchResult.ok []) []).2.1 (by decide) (by decide) rfl⟩

/-- Claim C9: the great-circle distance is symmetric (here proved as exact
equality over the ideal reals, so in particular within the 1e-6 nm
tolerance), and the distance from any point to itself is exactly 0. -/
theorem C9_distance_symm_zero (lat1 lon1 lat2 lon2 p q : ℝ) :
    |calculate_distance lat1 lon1 lat2 lon2 - calculate_distance lat2 lon2 lat1 lon1|
      ≤ 1 / 1000000 ∧
    calculate_distance p q p q = 0 := by
  have key : ∀ u v : ℝ, Real.sin ((u - v) / 2) ^ 2 = Real.sin ((v - u) / 2) ^ 2 := by
    intro u v
    rw [show (u - v) / 2 = -((v - u) / 2) by ring, Real.sin_neg, neg_sq]
  constructor
  · have hsy : calculate_distance lat1 lon1 lat2 lon2 =
        calculate_distance lat2 lon2 lat1 lon1 := by
      simp only [calculate_distance]
      rw [key (radians lat2) (radians lat1), key (radians lon2) (radians lon1),
        mul_comm (Real.cos (radians lat1)) (Real.cos (radians lat2))]
    rw [hsy, sub_self, abs_zero]
    norm_num
  · simp [calculate_distance, sub_self, Real.sqrt_zero, Real.arcsin_zero]

/-- Claim C10: when the fetched receiver latitude or longitude is the number
0 (equator or prime meridian), the closest-aircraft and by-direction
handlers return the receiver-location error instead of computing results,
because the missing-coordinate truthiness check treats 0 like an absent
coordinate. -/
theorem C10_zero_coordinate (count : Option CountArg) (md md' : Option ℝ)
    (rd : ReceiverData) (af af' : FetchResult (List (Aircraft ℝ))) (direction : String)
    (hcount : count = none ∨ ∃ n, count = some (CountArg.int n) ∧ 1 ≤ n ∧ n ≤ 50)
    (hdir : lowerS direction ∈ valid_directions)
    (h0 : rd.lat = some 0 ∨ rd.lon = some 0) :
    get_closest_aircraft_tool count md (.ok rd) af = ClosestOutcome.locationError ∧
    get_aircraft_by_direction_tool direction md' count (.ok rd) af' =
      DirectionOutcome.locationError := by
  obtain ⟨n5, hget5, hok5⟩ :
      ∃ n, count.getD (CountArg.int 5) = CountArg.int n ∧ ¬(n < 1 ∨ 50 < n) := by
    rcases hcount with rfl | ⟨n, rfl, h1, h2⟩
    · exact ⟨5, rfl, by norm_num⟩
    · exact ⟨n, rfl, by omega⟩
  obtain ⟨n10, hget10, hok10⟩ :
      ∃ n, count.getD (CountArg.int 10) = CountArg.int n ∧ ¬(n < 1 ∨ 50 < n) := by
    rcases hcount with rfl | ⟨n, rfl, h1, h2⟩
    · exact ⟨10, rfl, by norm_num⟩
    · exact ⟨n, rfl, by omega⟩
  obtain ⟨rlat, rlon⟩ := rd
  simp only [] at h0
  constructor
  · unfold get_closest_aircraft_tool
    rw [hget5]
    simp only [if_neg hok5]
    rcases h0 with h | h
    · subst h
      cases rlon with
      | none => rfl
      | some v =>
        simp [decide_eq_true (show (0 : ℝ) = 0 from rfl)]
    · subst h
      cases rlat with
      | none => rfl
      | some v =>
        simp [decide_eq_true (show (0 : ℝ) = 0 from rfl)]
  · unfold get_aircraft_by_direction_tool
    simp only [if_pos hdir]
    rw [hget10]
    simp only [if_neg hok10]
    rcases h0 with h | h
    · subst h
      cases rlon with
      | none => rfl
      | some v =>
        simp [decide_eq_true (show (0 : ℝ) = 0 from rfl)]
    · subst h
      cases rlat with
      | none => rfl
      | some v =>
        simp [decide_eq_true (show (0 : ℝ) = 0 from rfl)]

/-- Witness for C10 at a concrete input: receiver latitude exactly 0,
longitude 50, default counts, direction "north". -/
theorem C10_zero_coordinate_witness :
    get_closest_aircraft_tool none none (.ok ⟨some 0, some 50⟩) .failed =
      ClosestOutcome.locationError ∧
    get_aircraft_by_direction_tool "north" none none (.ok ⟨some 0, some 50⟩) .failed =
      DirectionOutcome.locationError :=
  C10_zero_coordinate none none none ⟨some 0, some 50⟩ .failed .failed "north"
    (Or.inl rfl) (by decide) (Or.inl rfl)

end Readsb
